import Mathlib

/-!
Shallow embedding of the OtterlyAPI repository layer
(`src/repositories/Repository.ts`) and server model layer
(`src/models/model-serveur.ts`).

The database is modelled as a list of rows (the backing table), and every
database call takes an explicit `ok : Bool` oracle saying whether the query
succeeds or throws; a throwing query is an `Except.error` which the source
code catches and converts to a benign default, exactly as the `try`/`catch`
blocks do.  Entity identifiers are TypeScript numbers, modelled as `Int`.

The generic repository `Repository<T extends { id?: number }>` is embedded
as a family of functions parameterised by the entity type `T` together with
the id accessors `getId : T → Option Int` and `setId : T → Int → T` that
stand for reading and writing the optional `id` field.
-/

set_option autoImplicit false

namespace Otterly

variable {T : Type}

/-- The in-memory state of one repository instance: the `store` map
(`Map<string, T>`, modelled as an association list in insertion order)
and the database table backing it. -/
structure RepoState (T : Type) where
  store : List (String × T)
  table : List T

/-- `Map.set` semantics: replace the value at an existing key in place,
otherwise append the binding at the end. -/
def storeSet (s : List (String × T)) (k : String) (v : T) : List (String × T) :=
  match s with
  | [] => [(k, v)]
  | (k₁, v₁) :: rest => if k₁ = k then (k, v) :: rest else (k₁, v₁) :: storeSet rest k v

/-- `Map.get` semantics: the value bound to the first occurrence of the key. -/
def storeGet (s : List (String × T)) (k : String) : Option T :=
  match s with
  | [] => none
  | (k₁, v₁) :: rest => if k₁ = k then some v₁ else storeGet rest k

/-- `SELECT MAX(id) FROM t`: SQL `MAX` ignores NULL ids and is itself NULL
when no non-NULL id exists. -/
def maxIdOpt (getId : T → Option Int) : List T → Option Int
  | [] => none
  | x :: xs =>
    match getId x, maxIdOpt getId xs with
    | some n, some m => some (max n m)
    | some n, none => some n
    | none, r => r

/-- One database query that can fail, driven by the `ok` oracle. -/
def dbMaxId (getId : T → Option Int) (table : List T) (ok : Bool) : Except Unit (Option Int) :=
  if ok then Except.ok (maxIdOpt getId table) else Except.error ()

/-- `INSERT INTO t SET ?`: appends the row, or throws when the oracle says
the query fails. -/
def dbInsert (table : List T) (row : T) (ok : Bool) : Except Unit (List T) :=
  if ok then Except.ok (table ++ [row]) else Except.error ()

/-- `Repository.fetchNextId`: `MAX(id)` with `?? 0`, plus one; the `catch`
branch logs and returns `0`. -/
def fetchNextId (getId : T → Option Int) (table : List T) (ok : Bool) : Int :=
  match dbMaxId getId table ok with
  | Except.ok m => m.getD 0 + 1
  | Except.error _ => 0

/-- `Repository.getNextId` just delegates to `fetchNextId`. -/
def getNextId (getId : T → Option Int) (table : List T) (ok : Bool) : Int :=
  fetchNextId getId table ok

/-- The item as it stands after `item.id ??= await this.getNextId()`:
unchanged when the id is preset, otherwise the freshly fetched id is
assigned (`0` when the `MAX` query failed). -/
def savedItem (getId : T → Option Int) (setId : T → Int → T)
    (item : T) (table : List T) (fetchOk : Bool) : T :=
  match getId item with
  | some _ => item
  | none => setId item (fetchNextId getId table fetchOk)

/-- The key `item.id.toString()` used for the `store` map. -/
def savedKey (getId : T → Option Int) (setId : T → Int → T)
    (item : T) (table : List T) (fetchOk : Bool) : String :=
  match getId (savedItem getId setId item table fetchOk) with
  | some n => toString n
  | none => ""

/-- `Repository.save`: assigns the id if absent, writes the `store` map,
then tries the database insert inside `try`/`catch`; an insert failure is
caught and logged, so the function returns normally (`Except.ok`) in every
case.  The `Except` layer records whether anything escaped the `catch`. -/
def save (getId : T → Option Int) (setId : T → Int → T)
    (item : T) (st : RepoState T) (fetchOk insOk : Bool) : Except Unit (RepoState T) :=
  let item₁ := savedItem getId setId item st.table fetchOk
  let store₁ := storeSet st.store (savedKey getId setId item st.table fetchOk) item₁
  let table₁ :=
    match dbInsert st.table item₁ insOk with
    | Except.ok t => t
    | Except.error _ => st.table
  Except.ok { store := store₁, table := table₁ }

/-- The repository state after `save` (which, by `save` never throwing, is
always the `Except.ok` payload). -/
def saveRun (getId : T → Option Int) (setId : T → Int → T)
    (item : T) (st : RepoState T) (fetchOk insOk : Bool) : RepoState T :=
  match save getId setId item st fetchOk insOk with
  | Except.ok st₁ => st₁
  | Except.error _ => st

/-- `Repository.findById`: first row matching the id, `none` when no row
matches or the query fails (the `catch` branch returns `null`). -/
def findById (getId : T → Option Int) (table : List T) (tid : Int) (ok : Bool) : Option T :=
  if ok then table.find? (fun x => decide (getId x = some tid)) else none

/-- `Repository.findAll`: every row, or the empty list when the query
fails. -/
def findAll (table : List T) (ok : Bool) : List T :=
  if ok then table else []

/-- `Repository.delete`: removes the rows matching the id and reports
`affectedRows > 0`; a failed query is caught and reported as `false` with
the table untouched. -/
def deleteOp (getId : T → Option Int) (table : List T) (tid : Int) (ok : Bool) :
    Bool × List T :=
  if ok then
    (decide (0 < table.countP (fun x => decide (getId x = some tid))),
     table.filter (fun x => !decide (getId x = some tid)))
  else
    (false, table)

theorem storeGet_storeSet (s : List (String × T)) (k : String) (v : T) :
    storeGet (storeSet s k v) k = some v := by
  induction s with
  | nil => simp [storeSet, storeGet]
  | cons p rest ih =>
    obtain ⟨k₁, v₁⟩ := p
    by_cases h : k₁ = k
    · simp [storeSet, storeGet, h]
    · simp [storeSet, storeGet, h, ih]

theorem maxIdOpt_is_bound (getId : T → Option Int) (table : List T) (x : T) (n : Int)
    (hx : x ∈ table) (hn : getId x = some n) :
    ∃ m, maxIdOpt getId table = some m ∧ n ≤ m := by
  induction table with
  | nil => cases hx
  | cons y ys ih =>
    rcases List.mem_cons.mp hx with rfl | hmem
    · cases hmax : maxIdOpt getId ys with
      | none => exact ⟨n, by simp [maxIdOpt, hn, hmax], le_refl n⟩
      | some m => exact ⟨max n m, by simp [maxIdOpt, hn, hmax], le_max_left n m⟩
    · obtain ⟨m, hm, hnm⟩ := ih hmem
      cases hy : getId y with
      | none => exact ⟨m, by simp [maxIdOpt, hy, hm], hnm⟩
      | some p =>
        exact ⟨max p m, by simp [maxIdOpt, hy, hm], le_trans hnm (le_max_right p m)⟩

theorem le_maxIdOpt_getD (getId : T → Option Int) (table : List T) (x : T) (n : Int)
    (hx : x ∈ table) (hn : getId x = some n) : n ≤ (maxIdOpt getId table).getD 0 := by
  obtain ⟨m, hm, hnm⟩ := maxIdOpt_is_bound getId table x n hx hn
  rw [hm]
  simpa using hnm

/-!
The server model layer, `src/models/model-serveur.ts`.

`ServeurData` is `Partial<ServeurInterface>` (every field optional);
`ModelServeur` is the constructed model instance, whose constructor fills
each missing field with its default.
-/

/-- `Partial<ServeurInterface>`: the constructor input, every field
optional.  (`ServeurInterfaces.ts` is not part of the excerpt; the field
list is the one the `ModelServeur` constructor and class body read.) -/
structure ServeurData where
  id : Option Int
  nom : Option String
  jeu : Option String
  version : Option String
  modpack : Option String
  modpack_url : Option String
  nom_monde : Option String
  embed_color : Option String
  contenaire : Option String
  description : Option String
  actif : Option Bool
  global : Option Bool
  players_online : Option Int
  type : Option String
  image : Option String
deriving DecidableEq

/-- A constructed `ModelServeur` instance (its fields after the
constructor ran). -/
structure ModelServeur where
  id : Option Int
  nom : String
  jeu : String
  version : String
  modpack : String
  modpack_url : String
  nom_monde : String
  embed_color : String
  contenaire : String
  description : String
  actif : Bool
  global : Bool
  players_online : Option Int
  type : String
  image : String
deriving DecidableEq

/-- The `ModelServeur` constructor.  Modelled from the spec: the `Model`
base class (`src/models/Model.ts`, absent from the excerpt) is "a domain
object wrapping an entity"; its constructor `super(data)` stores the
optional numeric identifier, which the repository layer later reads and
assigns.  Every other line is the constructor body of
`model-serveur.ts` verbatim: each field defaults via `??`, and
`players_online` is never set by the constructor. -/
def mkModelServeur (data : ServeurData) : ModelServeur where
  id := data.id
  nom := data.nom.getD ""
  jeu := data.jeu.getD ""
  version := data.version.getD ""
  modpack := data.modpack.getD ""
  modpack_url := data.modpack_url.getD ""
  nom_monde := data.nom_monde.getD ""
  embed_color := data.embed_color.getD "#000000"
  contenaire := data.contenaire.getD ""
  description := data.description.getD ""
  actif := data.actif.getD false
  global := data.global.getD false
  players_online := none
  type := data.type.getD ""
  image := data.image.getD ""

/-- Reading the optional `id` field of a server row/instance
(`RepositoryServeur` specialises `Repository<ServeurInterface>`). -/
def srvGetId (m : ModelServeur) : Option Int :=
  m.id

/-- Writing the `id` field of a server row/instance. -/
def srvSetId (m : ModelServeur) (n : Int) : ModelServeur :=
  { m with id := some n }

/-- A database row read back `as ServeurInterface` and handed to the
`ModelServeur` constructor: every stored attribute is present. -/
def rowToData (m : ModelServeur) : ServeurData where
  id := m.id
  nom := some m.nom
  jeu := some m.jeu
  version := some m.version
  modpack := some m.modpack
  modpack_url := some m.modpack_url
  nom_monde := some m.nom_monde
  embed_color := some m.embed_color
  contenaire := some m.contenaire
  description := some m.description
  actif := some m.actif
  global := some m.global
  players_online := m.players_online
  type := some m.type
  image := some m.image

/-- `ModelServeur.getById`: `findById` on the serveur repository, wrapping
a found row in a fresh `ModelServeur`. -/
def getById (table : List ModelServeur) (tid : Int) (ok : Bool) : Option ModelServeur :=
  (findById srvGetId table tid ok).map (fun row => mkModelServeur (rowToData row))

/-- `ModelServeur.getServeursActifGlobal`: `findAll`, in-memory filter on
both flags, then wrap each row.  Paired with the table the repository holds
afterwards (the read leaves it untouched). -/
def getServeursActifGlobal (table : List ModelServeur) (ok : Bool) :
    List ModelServeur × List ModelServeur :=
  (((findAll table ok).filter (fun s => s.actif && s.global)).map
      (fun d => mkModelServeur (rowToData d)),
    table)

/-- `ModelServeur.create`: fetches the next id, constructs the instance
with that id spread over the input data, saves it, and returns it. -/
def create (data : ServeurData) (st : RepoState ModelServeur) (fetchOk insOk : Bool) :
    RepoState ModelServeur × ModelServeur :=
  let nextId := getNextId srvGetId st.table fetchOk
  let serveur := mkModelServeur { data with id := some nextId }
  (saveRun srvGetId srvSetId serveur st fetchOk insOk, serveur)

/-- The row of the `serveur_parameters` table holding the designated
primary and secondary server ids.  Modelled from the spec:
`RepositoryServeurParameters` (absent from the excerpt) "resolves two
designated identifiers (primary/secondary) from a separate parameters
table". -/
structure ServeurParams where
  id_serv_primaire : Int
  id_serv_secondaire : Int
deriving DecidableEq

/-- `ModelServeur.getStartedServeursInfo`.  `params?` is the result of
`getStartedServeursId()` (the parameters-table lookup, `none` on failure
or absence), `okP`/`okS` drive the two `getById` queries, and `count` is
the external `ServiceServeur.getPlayersCount` (modelled from the spec: "a
live player count fetched from an external service"). -/
def getStartedServeursInfo (params? : Option ServeurParams) (table : List ModelServeur)
    (okP okS : Bool) (count : ModelServeur → Int) : Option (List ModelServeur) :=
  match params? with
  | none => none
  | some ps =>
    let p? := (getById table ps.id_serv_primaire okP).map
      (fun m => { m with players_online := some (count m) })
    let s? := (getById table ps.id_serv_secondaire okS).map
      (fun m => { m with players_online := some (count m) })
    match p?, s? with
    | some p, some s => some [p, s]
    | _, _ => none

/-- The JSON values appearing in `toJSON`'s attribute map. -/
inductive JsonVal where
  | vId : Option Int → JsonVal
  | vStr : String → JsonVal
  | vBool : Bool → JsonVal
deriving DecidableEq

/-- `ModelServeur.toJSON`: the literal attribute map, in source order. -/
def toJSON (m : ModelServeur) : List (String × JsonVal) :=
  [("id", JsonVal.vId m.id),
   ("nom", JsonVal.vStr m.nom),
   ("jeu", JsonVal.vStr m.jeu),
   ("version", JsonVal.vStr m.version),
   ("modpack", JsonVal.vStr m.modpack),
   ("modpack_url", JsonVal.vStr m.modpack_url),
   ("nom_monde", JsonVal.vStr m.nom_monde),
   ("embed_color", JsonVal.vStr m.embed_color),
   ("contenaire", JsonVal.vStr m.contenaire),
   ("description", JsonVal.vStr m.description),
   ("actif", JsonVal.vBool m.actif),
   ("global", JsonVal.vBool m.global),
   ("type", JsonVal.vStr m.type),
   ("image", JsonVal.vStr m.image)]

/-- The all-absent constructor input (`{}`). -/
def emptyData : ServeurData where
  id := none
  nom := none
  jeu := none
  version := none
  modpack := none
  modpack_url := none
  nom_monde := none
  embed_color := none
  contenaire := none
  description := none
  actif := none
  global := none
  players_online := none
  type := none
  image := none

/-- Helper: re-wrapping a row read back from the table reproduces the
instance, except that `players_online` (which the constructor never sets)
is cleared. -/
theorem mkModelServeur_rowToData (m : ModelServeur) :
    mkModelServeur (rowToData m) = { m with players_online := none } := rfl

/-- C7: `Repository.getNextId` returns one plus the maximum identifier in
the backing table when the `MAX` query succeeds (an empty table counts as
maximum `0`, so it returns `1`), and returns `0` — a value, not an
exception — when the query fails. -/
theorem getNextId_max_plus_one_or_zero (getId : T → Option Int) (table : List T) :
    getNextId getId table true = (maxIdOpt getId table).getD 0 + 1
    ∧ getNextId getId ([] : List T) true = 1
    ∧ getNextId getId table false = 0 := by
  refine ⟨?_, ?_, ?_⟩ <;> simp [getNextId, fetchNextId, dbMaxId, maxIdOpt]

/-- C2: `Repository.delete` reports `true` exactly when some row carrying
the requested identifier was present before the call (at least one row
affected), and reports `false` — instead of raising — when the query
fails. -/
theorem delete_true_iff_row_existed (getId : T → Option Int) (table : List T) (tid : Int) :
    ((deleteOp getId table tid true).fst = true ↔ ∃ x ∈ table, getId x = some tid)
    ∧ (deleteOp getId table tid false).fst = false := by
  constructor
  · simp only [deleteOp, if_pos, decide_eq_true_eq]
    rw [List.countP_pos_iff]
    simp
  · simp [deleteOp]

/-- C3: `Repository.save` never raises to its caller: for every item and
every oracle outcome — the failing insert included — the call completes
normally (`Except.ok`), so a failed save looks exactly like a successful
one to the caller. -/
theorem save_never_raises (getId : T → Option Int) (setId : T → Int → T)
    (item : T) (st : RepoState T) (fetchOk insOk : Bool) :
    (save getId setId item st fetchOk insOk).isOk = true
    ∧ save getId setId item st fetchOk insOk =
        Except.ok (saveRun getId setId item st fetchOk insOk) := by
  exact ⟨rfl, rfl⟩

/-- C9: `Repository.save` writes the item into the in-memory `store` map
(under the string form of its assigned identifier) no matter how the
database insert goes, and when the insert fails the backing table is left
unchanged — so the map holds the item while the table gained nothing. -/
theorem save_store_set_despite_failed_insert (getId : T → Option Int) (setId : T → Int → T)
    (item : T) (st : RepoState T) (fetchOk : Bool) :
    (∀ insOk, storeGet (saveRun getId setId item st fetchOk insOk).store
        (savedKey getId setId item st.table fetchOk)
      = some (savedItem getId setId item st.table fetchOk))
    ∧ (saveRun getId setId item st fetchOk false).table = st.table := by
  constructor
  · intro insOk
    simp only [saveRun, save]
    exact storeGet_storeSet st.store (savedKey getId setId item st.table fetchOk)
      (savedItem getId setId item st.table fetchOk)
  · simp [saveRun, save, dbInsert]

/-- C10: `ModelServeur.toJSON` exposes exactly the fourteen fields `id`,
`nom`, `jeu`, `version`, `modpack`, `modpack_url`, `nom_monde`,
`embed_color`, `contenaire`, `description`, `actif`, `global`, `type` and
`image`, and never a `players_online` entry — setting `players_online`
does not change the serialisation at all. -/
theorem toJSON_fields_exact (m : ModelServeur) :
    (toJSON m).map Prod.fst =
      ["id", "nom", "jeu", "version", "modpack", "modpack_url", "nom_monde",
       "embed_color", "contenaire", "description", "actif", "global", "type", "image"]
    ∧ (∀ p ∈ toJSON m, p.fst ≠ "players_online")
    ∧ ∀ n, toJSON { m with players_online := some n } = toJSON m := by
  refine ⟨rfl, ?_, fun n => rfl⟩
  intro p hp hbad
  have h₁ : p.1 ∈ (toJSON m).map Prod.fst := List.mem_map_of_mem Prod.fst hp
  have hkeys : (toJSON m).map Prod.fst =
      ["id", "nom", "jeu", "version", "modpack", "modpack_url", "nom_monde",
       "embed_color", "contenaire", "description", "actif", "global", "type", "image"] := rfl
  rw [hkeys, hbad] at h₁
  exact absurd h₁ (by decide)

/-- A server row whose `actif` and `global` flags are both set. -/
def actifGlobalRow : ModelServeur :=
  mkModelServeur { emptyData with actif := some true, global := some true }

/-- C1 is refuted as stated: with a table whose maximum identifier is `1`,
an id-less entity saved while the `MAX` query fails is assigned the value
`fetchNextId` computes in its catch branch, namely `0` — which is not
strictly greater than the identifier `1` present in the table. -/
theorem save_fresh_id_counterexample :
    srvGetId (mkModelServeur emptyData) = none
    ∧ srvSetId (mkModelServeur emptyData) 1 ∈ [srvSetId (mkModelServeur emptyData) 1]
    ∧ srvGetId (srvSetId (mkModelServeur emptyData) 1) = some 1
    ∧ srvGetId (savedItem srvGetId srvSetId (mkModelServeur emptyData)
        [srvSetId (mkModelServeur emptyData) 1] false) = some 0
    ∧ ¬ ((1 : Int) < 0) := by
  exact ⟨rfl, by simp, rfl, rfl, by decide⟩

/-- C1 (amended): provided the `MAX` query succeeds, `save` assigns an
id-less entity the value computed by `fetchNextId`, that value is strictly
greater than every identifier present in the backing table at call time,
and it is the identifier carried by the row the insert appends.  (When the
`MAX` query fails, `fetchNextId` yields `0`, which need not exceed the
current maximum.) -/
theorem save_assigns_fresh_id (getId : T → Option Int) (setId : T → Int → T)
    (item : T) (st : RepoState T)
    (law : ∀ x n, getId (setId x n) = some n)
    (hid : getId item = none) :
    getId (savedItem getId setId item st.table true) =
      some (fetchNextId getId st.table true)
    ∧ (∀ x ∈ st.table, ∀ n, getId x = some n → n < fetchNextId getId st.table true)
    ∧ (saveRun getId setId item st true true).table =
        st.table ++ [savedItem getId setId item st.table true] := by
  refine ⟨by simp [savedItem, hid, law], ?_, by simp [saveRun, save, dbInsert]⟩
  intro x hx n hn
  have h := le_maxIdOpt_getD getId st.table x n hx hn
  have hf : fetchNextId getId st.table true = (maxIdOpt getId st.table).getD 0 + 1 := by
    simp [fetchNextId, dbMaxId]
  rw [hf]
  omega

theorem save_assigns_fresh_id_witness :
    ((∀ x n, srvGetId (srvSetId x n) = some n) ∧ srvGetId (mkModelServeur emptyData) = none)
    ∧ (srvGetId (savedItem srvGetId srvSetId (mkModelServeur emptyData) [] true) =
        some (fetchNextId srvGetId [] true)
      ∧ (∀ x ∈ ([] : List ModelServeur), ∀ n, srvGetId x = some n →
          n < fetchNextId srvGetId [] true)
      ∧ (saveRun srvGetId srvSetId (mkModelServeur emptyData)
            { store := [], table := [] } true true).table =
          [] ++ [savedItem srvGetId srvSetId (mkModelServeur emptyData) [] true]) :=
  ⟨⟨fun _ _ => rfl, rfl⟩,
    save_assigns_fresh_id srvGetId srvSetId (mkModelServeur emptyData)
      { store := [], table := [] } (fun _ _ => rfl) rfl⟩

/-- C4 is refuted as stated: a table holding a row with both flags set is
not reproduced when the full-table read fails — the result is empty, so
the call does not return exactly the qualifying rows. -/
theorem getServeursActifGlobal_counterexample :
    actifGlobalRow.actif = true ∧ actifGlobalRow.global = true
    ∧ actifGlobalRow ∈ [actifGlobalRow]
    ∧ (getServeursActifGlobal [actifGlobalRow] false).fst = [] := by
  exact ⟨rfl, rfl, by simp, rfl⟩

/-- C4 (amended): when the full-table read succeeds,
`getServeursActifGlobal` returns exactly the rows whose `actif` and
`global` flags are both true, each wrapped as a `ModelServeur`; the
backing table is never written; and regardless of the read outcome every
returned entity has both flags true (on a failed read the result is
empty). -/
theorem getServeursActifGlobal_filters (table : List ModelServeur) (ok : Bool) :
    (getServeursActifGlobal table true).fst =
      (table.filter (fun s => s.actif && s.global)).map
        (fun d => mkModelServeur (rowToData d))
    ∧ (getServeursActifGlobal table ok).snd = table
    ∧ ∀ m ∈ (getServeursActifGlobal table ok).fst, m.actif = true ∧ m.global = true := by
  refine ⟨by simp [getServeursActifGlobal, findAll], rfl, ?_⟩
  intro m hm
  simp only [getServeursActifGlobal, List.mem_map, List.mem_filter] at hm
  obtain ⟨d, ⟨_, hflags⟩, rfl⟩ := hm
  rw [Bool.and_eq_true] at hflags
  exact ⟨hflags.1, hflags.2⟩

/-- C5: create-then-read round-trip.  Creating a record with no identifier
(`create`, with both queries succeeding) and fetching by the identifier of
the returned object (`getById`, query succeeding) yields exactly the
created instance: every field round-trips, the identifier having been
assigned the freshly allocated value. -/
theorem create_getById_roundtrip (data : ServeurData) (st : RepoState ModelServeur)
    (_hid : data.id = none) :
    (create data st true true).snd.id = some (getNextId srvGetId st.table true)
    ∧ getById (create data st true true).fst.table (getNextId srvGetId st.table true) true
        = some (create data st true true).snd
    ∧ (create data st true true).snd =
        mkModelServeur { data with id := some (getNextId srvGetId st.table true) } := by
  refine ⟨rfl, ?_, rfl⟩
  have hnone : st.table.find?
      (fun x => decide (srvGetId x = some (getNextId srvGetId st.table true))) = none := by
    rw [List.find?_eq_none]
    intro x hx
    simp only [decide_eq_true_eq]
    intro hEq
    have hle := le_maxIdOpt_getD srvGetId st.table x (getNextId srvGetId st.table true) hx hEq
    have hnid : getNextId srvGetId st.table true = (maxIdOpt srvGetId st.table).getD 0 + 1 := by
      simp [getNextId, fetchNextId, dbMaxId]
    omega
  have htable : (create data st true true).fst.table =
      st.table ++ [mkModelServeur { data with id := some (getNextId srvGetId st.table true) }] :=
    rfl
  rw [getById, findById, htable, if_pos rfl, List.find?_append, hnone, Option.none_or,
    List.find?_cons_of_pos _ (by simp [srvGetId, mkModelServeur])]
  rfl

theorem create_getById_roundtrip_witness :
    emptyData.id = none
    ∧ ((create emptyData { store := [], table := [] } true true).snd.id =
        some (getNextId srvGetId [] true)
      ∧ getById (create emptyData { store := [], table := [] } true true).fst.table
          (getNextId srvGetId [] true) true
        = some (create emptyData { store := [], table := [] } true true).snd
      ∧ (create emptyData { store := [], table := [] } true true).snd =
          mkModelServeur { emptyData with id := some (getNextId srvGetId [] true) }) :=
  ⟨rfl, create_getById_roundtrip emptyData { store := [], table := [] } rfl⟩

/-- C6: `ModelServeur.getStartedServeursInfo` is `none` exactly when the
parameters lookup yields nothing or either designated server cannot be
loaded; when everything resolves it returns the primary and secondary
servers, each enriched with the externally fetched player count. -/
theorem getStartedServeursInfo_null_or_enriched (params? : Option ServeurParams)
    (table : List ModelServeur) (okP okS : Bool) (count : ModelServeur → Int) :
    (getStartedServeursInfo params? table okP okS count = none ↔
      params? = none ∨ ∃ ps, params? = some ps ∧
        (getById table ps.id_serv_primaire okP = none ∨
         getById table ps.id_serv_secondaire okS = none))
    ∧ ∀ ps p s, params? = some ps →
        getById table ps.id_serv_primaire okP = some p →
        getById table ps.id_serv_secondaire okS = some s →
        getStartedServeursInfo params? table okP okS count =
          some [{ p with players_online := some (count p) },
                { s with players_online := some (count s) }] := by
  constructor
  · cases params? with
    | none => simp [getStartedServeursInfo]
    | some ps =>
      cases hp : getById table ps.id_serv_primaire okP with
      | none => simp [getStartedServeursInfo, hp]
      | some p =>
        cases hs : getById table ps.id_serv_secondaire okS with
        | none => simp [getStartedServeursInfo, hp, hs]
        | some s => simp [getStartedServeursInfo, hp, hs]
  · intro ps p s hps hp hs
    subst hps
    simp [getStartedServeursInfo, hp, hs]

/-- A persisted server row with identifier `1`. -/
def srvRow1 : ModelServeur :=
  srvSetId (mkModelServeur emptyData) 1

/-- A persisted server row with identifier `2`. -/
def srvRow2 : ModelServeur :=
  srvSetId (mkModelServeur emptyData) 2

theorem getStartedServeursInfo_witness :
    ((some (⟨1, 2⟩ : ServeurParams) = some ⟨1, 2⟩)
      ∧ getById [srvRow1, srvRow2] 1 true = some srvRow1
      ∧ getById [srvRow1, srvRow2] 2 true = some srvRow2)
    ∧ getStartedServeursInfo (some ⟨1, 2⟩) [srvRow1, srvRow2] true true (fun _ => 7) =
        some [{ srvRow1 with players_online := some 7 },
              { srvRow2 with players_online := some 7 }] := by
  have h1 : getById [srvRow1, srvRow2] 1 true = some srvRow1 := by decide
  have h2 : getById [srvRow1, srvRow2] 2 true = some srvRow2 := by decide
  exact ⟨⟨rfl, h1, h2⟩,
    (getStartedServeursInfo_null_or_enriched (some ⟨1, 2⟩) [srvRow1, srvRow2] true true
      (fun _ => 7)).2 ⟨1, 2⟩ srvRow1 srvRow2 rfl h1 h2⟩

/-!
An explicit interleaving semantics for two concurrent `create` calls.
`ModelServeur.create` performs two database round-trips: the `SELECT
MAX(id)` behind `getNextId`, then (inside `save`, the id now being preset)
the `INSERT`.  Each round-trip is one atomic step against the shared
table; between the two steps of one call the other call may run.
-/

/-- Progress of one pending `create data` call: not yet started, id
fetched but row not yet inserted, or finished. -/
inductive CreatePhase where
  | ready : ServeurData → CreatePhase
  | allocated : ServeurData → Int → CreatePhase
  | finished : CreatePhase

/-- Shared table plus the progress of the two concurrent `create`s. -/
structure RaceState where
  table : List ModelServeur
  left : CreatePhase
  right : CreatePhase

/-- One atomic database step of a pending `create`: the `MAX` read
(allocating `getNextId` of the table as seen now), or the `INSERT`
(appending the constructed row carrying the previously allocated id, as
`save` does for an item whose id is preset). -/
def phaseStep (table : List ModelServeur) : CreatePhase → CreatePhase × List ModelServeur
  | CreatePhase.ready d =>
    (CreatePhase.allocated d (getNextId srvGetId table true), table)
  | CreatePhase.allocated d n =>
    (CreatePhase.finished, table ++ [mkModelServeur { d with id := some n }])
  | CreatePhase.finished => (CreatePhase.finished, table)

/-- Run one step of the scheduled call (`true` = left, `false` = right). -/
def raceStep (st : RaceState) (who : Bool) : RaceState :=
  if who then
    let r := phaseStep st.table st.left
    { st with left := r.fst, table := r.snd }
  else
    let r := phaseStep st.table st.right
    { st with right := r.fst, table := r.snd }

/-- Run a whole schedule of interleaved steps. -/
def raceRun (st : RaceState) (sched : List Bool) : RaceState :=
  sched.foldl raceStep st

/-- Empty table, both `create` calls (each given id-less input data) about
to run. -/
def raceInit : RaceState where
  table := []
  left := CreatePhase.ready emptyData
  right := CreatePhase.ready emptyData

/-- C8: starting from an empty table, the interleaving read/read/insert/
insert of two id-less `create` calls persists the identifier `1` twice —
duplicate identifiers, breaking uniqueness — whereas the fully sequential
schedule of the same two calls yields the distinct identifiers `1` and
`2`. -/
theorem concurrent_create_duplicate_id :
    ((raceRun raceInit [true, false, true, false]).table.map (fun m => m.id) =
        [some 1, some 1])
    ∧ ¬ ((raceRun raceInit [true, false, true, false]).table.Pairwise
          (fun a b => a.id ≠ b.id))
    ∧ ((raceRun raceInit [true, true, false, false]).table.map (fun m => m.id) =
        [some 1, some 2]) := by
  refine ⟨rfl, by decide, rfl⟩

end Otterly
